import Mathlib

/-!
Verification development for the octopat OAuth token dispenser.

The definitions below are a shallow embedding of `src/main.rs` (and the
flow it drives): the Scope catalog with its serde wire names, the
authorization URL construction, the local callback request handler, the
orchestration order of the `create` flow, the CLI surface, and the
keyring credential read in `App::prompt`.
-/

namespace Octopat

/-- The permission scope catalog, one constructor per variant of the Rust
`Scope` enum in `src/main.rs` lines 27 to 93. -/
inductive Scope
  | Repo
  | RepoStatus
  | RepoDeployment
  | PublicRepo
  | RepoInvite
  | SecurityEvents
  | AdminRepoHook
  | WriteRepoHook
  | ReadRepoHook
  | AdminOrg
  | WriteOrg
  | ReadOrg
  | AdminPublicKey
  | WritePublicKey
  | ReadPublicKey
  | AdminOrgHook
  | Gist
  | Notifications
  | User
  | UserEmail
  | ReadUser
  | UserFollow
  | DeleteRepo
  | WriteDiscussion
  | ReadDiscussion
  | WritePackages
  | ReadPackages
  | DeletePackages
  | AdminGpgKey
  | WriteGpgKey
  | ReadGpgKey
  | Workflow
deriving DecidableEq, Repr

/-- Wire-format name of each scope: the serde `rename` attribute on the
variant. `Display for Scope` serializes through serde_json and strips the
surrounding quotes, so this is exactly the string that reaches the URL. -/
def scopeWire : Scope → String
  | .Repo => "repo"
  | .RepoStatus => "repo:status"
  | .RepoDeployment => "repo_deployment"
  | .PublicRepo => "public_repo"
  | .RepoInvite => "repo:invite"
  | .SecurityEvents => "security_events"
  | .AdminRepoHook => "admin:repo_hook"
  | .WriteRepoHook => "write:repo_hook"
  | .ReadRepoHook => "read:repo_hook"
  | .AdminOrg => "admin:org"
  | .WriteOrg => "write:org"
  | .ReadOrg => "read:org"
  | .AdminPublicKey => "admin:public_key"
  | .WritePublicKey => "write:public_key"
  | .ReadPublicKey => "read:public_key"
  | .AdminOrgHook => "admin:org_hook"
  | .Gist => "gist"
  | .Notifications => "notifications"
  | .User => "user"
  | .UserEmail => "user:email"
  | .ReadUser => "read:user"
  | .UserFollow => "user:follow"
  | .DeleteRepo => "delete_repo"
  | .WriteDiscussion => "write:discussion"
  | .ReadDiscussion => "read:discussion"
  | .WritePackages => "write:packages"
  | .ReadPackages => "read:packages"
  | .DeletePackages => "delete:packages"
  | .AdminGpgKey => "admin:gpg_key"
  | .WriteGpgKey => "write:gpg_key"
  | .ReadGpgKey => "read:gpg_key"
  | .Workflow => "workflow"

/-- Parsing a wire string back into a scope: the serde `Deserialize`
instance generated from the same `rename` table matches the exact string
and rejects anything else (the UnknownScope error condition). -/
def parseScope : String → Option Scope
  | "repo" => some .Repo
  | "repo:status" => some .RepoStatus
  | "repo_deployment" => some .RepoDeployment
  | "public_repo" => some .PublicRepo
  | "repo:invite" => some .RepoInvite
  | "security_events" => some .SecurityEvents
  | "admin:repo_hook" => some .AdminRepoHook
  | "write:repo_hook" => some .WriteRepoHook
  | "read:repo_hook" => some .ReadRepoHook
  | "admin:org" => some .AdminOrg
  | "write:org" => some .WriteOrg
  | "read:org" => some .ReadOrg
  | "admin:public_key" => some .AdminPublicKey
  | "write:public_key" => some .WritePublicKey
  | "read:public_key" => some .ReadPublicKey
  | "admin:org_hook" => some .AdminOrgHook
  | "gist" => some .Gist
  | "notifications" => some .Notifications
  | "user" => some .User
  | "user:email" => some .UserEmail
  | "read:user" => some .ReadUser
  | "user:follow" => some .UserFollow
  | "delete_repo" => some .DeleteRepo
  | "write:discussion" => some .WriteDiscussion
  | "read:discussion" => some .ReadDiscussion
  | "write:packages" => some .WritePackages
  | "read:packages" => some .ReadPackages
  | "delete:packages" => some .DeletePackages
  | "admin:gpg_key" => some .AdminGpgKey
  | "write:gpg_key" => some .WriteGpgKey
  | "read:gpg_key" => some .ReadGpgKey
  | "workflow" => some .Workflow
  | _ => none

/-- The authorization URL the `create` flow passes to `opener::open`
(src/main.rs line 287): a format string with the client id and the
selected scopes joined by the literal "%20"; the redirect port is the
hard-coded 4567. -/
def authorizeUrl (clientId : String) (scopes : List Scope) : String :=
  "https://github.com/login/oauth/authorize?client_id=" ++ clientId ++
    "&redirect_uri=http://localhost:4567/&scope=" ++
    String.intercalate "%20" (scopes.map scopeWire)

/-- Modelled from the spec: `buildAuthorizationUrl(clientId, scopes, port)`
with a port parameter rendered into the redirect URI, as described in
section 4.2 of the spec. The source has no such port parameter; this
definition exists to compare the spec contract with `authorizeUrl`. -/
def buildAuthorizationUrl (clientId : String) (scopes : List Scope) (port : Nat) : String :=
  "https://github.com/login/oauth/authorize?client_id=" ++ clientId ++
    "&redirect_uri=http://localhost:" ++ toString port ++ "/&scope=" ++
    String.intercalate "%20" (scopes.map scopeWire)

/-- An inbound HTTP request as the handler sees it: the URI path and the
query string already parsed into key-value pairs (url::form_urlencoded). -/
structure Request where
  path : String
  query : List (String × String)
deriving DecidableEq, Repr

/-- Lookup of a query parameter: the handler collects the parsed pairs
into a HashMap, so for a duplicated key the last pair wins. -/
def getParam (query : List (String × String)) (name : String) : Option String :=
  (query.reverse.find? (fun p => p.1 = name)).map Prod.snd

/-- Outcome of the token-exchange POST to
https://github.com/login/oauth/access_token: the transport can fail
(reqwest send() returns Err), the body can fail to parse into
AccessTokenResponse (json() returns Err), or an access_token is
produced. -/
inductive ExchangeResult
  | transportError
  | malformedBody
  | token (accessToken : String)
deriving DecidableEq, Repr

/-- What one invocation of the hyper service closure does: either it
returns a response (recording its status, body, and whether tx.send ran
before it), or it panics mid-handler on one of its unwrap calls. -/
inductive HandlerResult
  | response (status : Nat) (body : String) (signalSent : Bool)
  | panicked (reason : String)
deriving DecidableEq, Repr

/-- The request handler of the `create` flow (src/main.rs lines 302-347),
parameterised by the result of the token-exchange POST and by whether the
clipboard calls succeed. The favicon path returns
hyper::Response::default() (status 200, empty body) without touching the
query. Every other path builds the exchange form with
params.get("code").unwrap(), then unwraps send(), json() and the
clipboard calls, sends the completion signal, and answers 200 with the
close-tab message. -/
def handleRequest (exchange : String → ExchangeResult) (clipboardOk : Bool)
    (req : Request) : HandlerResult :=
  if req.path = "/favicon.ico" then
    .response 200 "" false
  else
    match getParam req.query "code" with
    | none => .panicked "params.get(code).unwrap() on None"
    | some code =>
      match exchange code with
      | .transportError => .panicked "send().await.unwrap() on transport error"
      | .malformedBody => .panicked "json().await.unwrap() on malformed body"
      | .token _ =>
        if clipboardOk then
          .response 200 "Octopat says can close this browser tab" true
        else
          .panicked "clipboard unwrap failed"

/-- Observable state of the callback server as the spec names it:
`listening` until the completion broadcast has fired, `completed` once it
has. The code has no explicit state value; completion is the tx.send that
lets the tokio select return. -/
inductive ServerState
  | listening
  | completed
deriving DecidableEq, Repr

/-- State after one handler invocation: only a response that was preceded
by tx.send completes the flow; a favicon answer or a panicked handler
task leaves the select still waiting. -/
def stepState (s : ServerState) (r : HandlerResult) : ServerState :=
  match r with
  | .response _ _ true => .completed
  | _ => s

/-- Serving a sequence of inbound requests: each is given to the handler;
the first one whose branch reaches tx.send ends the flow (rx.recv wins
the select), later requests are never served. Returns how many completion
signals were sent and the resulting state. A panicked handler only kills
that connection task: the server keeps listening. -/
def runServer (exchange : String → ExchangeResult) (clipboardOk : Bool) :
    List Request → Nat × ServerState
  | [] => (0, .listening)
  | r :: rest =>
    match handleRequest exchange clipboardOk r with
    | .response _ _ true => (1, .completed)
    | _ => runServer exchange clipboardOk rest

/-- The externally visible steps of the `create` flow, in order. -/
inductive FlowStep
  | promptApp
  | selectScopes
  | openBrowser (url : String)
  | bindPort (port : Nat)
  | serveAndAwait
deriving DecidableEq, Repr

/-- How one `create` invocation ends before or at the serve step. -/
inductive FlowResult
  | reachedServe
  | errored (msg : String)
  | panicked (msg : String)
deriving DecidableEq, Repr

/-- The orchestration order of `create` (src/main.rs lines 269-358) for
executions where the credential prompt and the scope selection succeed:
prompt, select, opener::open on the authorization URL, then
hyper::Server::bind on 127.0.0.1:4567, then serve racing rx.recv.
`opener::open` failure propagates with the question-mark operator;
`hyper::Server::bind` panics when binding the address fails. -/
def createFlow (clientId : String) (scopes : List Scope)
    (openOk bindOk : Bool) : List FlowStep × FlowResult :=
  let url := authorizeUrl clientId scopes
  if openOk = false then
    ([.promptApp, .selectScopes, .openBrowser url], .errored "opener failed")
  else if bindOk = false then
    ([.promptApp, .selectScopes, .openBrowser url, .bindPort 4567],
      .panicked "Server bind panicked")
  else
    ([.promptApp, .selectScopes, .openBrowser url, .bindPort 4567, .serveAndAwait],
      .reachedServe)

/-- The CLI surface: the StructOpt enum `Opts` has exactly the
subcommands Create, List and Delete and no flags (src/main.rs lines
14-23). -/
inductive Opts
  | Create
  | List
  | Delete
deriving DecidableEq, Repr

/-- Argument parsing as StructOpt derives it for `Opts`: exactly one
subcommand word is accepted; an empty invocation or any flag is an
error (there is no default action, no port flag, no alias flag). -/
def parseOpts : List String → Option Opts
  | ["create"] => some .Create
  | ["list"] => some .List
  | ["delete"] => some .Delete
  | _ => none

/-- The port the callback server binds, hard-coded in
hyper::Server::bind(&([127, 0, 0, 1], 4567)) at src/main.rs line 292. -/
def callbackPort : Nat := 4567

/-- The keyring entry `App::prompt` reads, hard-coded as
Keyring::new("octopat", "default") at src/main.rs line 167. -/
def keyringService : String := "octopat"

/-- The credential alias within the keyring service, hard-coded to
"default" at src/main.rs line 167. -/
def keyringUser : String := "default"

/-- Rust str::split(':') over the characters of the stored keyring value:
splits at every colon, keeping empty pieces. -/
def splitColonAux : List Char → List Char → List (List Char)
  | [], acc => [acc.reverse]
  | c :: rest, acc =>
    if c = ':' then acc.reverse :: splitColonAux rest []
    else splitColonAux rest (c :: acc)

/-- value.split(':').collect::<Vec<_>>() in App::prompt
(src/main.rs line 169). -/
def splitColon (value : List Char) : List (List Char) :=
  splitColonAux value []

/-- Result of reading back stored app credentials: the slice pattern
`[client_id, client_secret]` succeeds only on exactly two pieces; every
other shape hits the `panic!` arm (src/main.rs lines 169-174). -/
inductive ReadCreds
  | ok (clientId clientSecret : List Char)
  | panicked
deriving DecidableEq, Repr

/-- App::prompt on a keyring hit: match the colon-split of the stored
value against exactly two parts or panic. -/
def readStoredCreds (value : List Char) : ReadCreds :=
  match splitColon value with
  | [a, b] => .ok a b
  | _ => .panicked

/-- How App::prompt stores freshly entered credentials:
format with a colon between client id and client secret
(src/main.rs line 184). -/
def storeCreds (clientId clientSecret : List Char) : List Char :=
  clientId ++ ':' :: clientSecret

/-- Splitting on colons yields one piece more than the number of colons. -/
theorem splitColonAux_length (l : List Char) :
    ∀ acc, (splitColonAux l acc).length = l.count ':' + 1 := by
  induction l with
  | nil => intro acc; simp [splitColonAux]
  | cons c rest ih =>
    intro acc
    by_cases h : c = ':'
    · subst h; simp [splitColonAux, ih, List.count_cons]
    · simp [splitColonAux, h, ih, List.count_cons]

/-- The credential read panics exactly when the colon split does not have
exactly two pieces. -/
theorem readStoredCreds_eq_panicked (value : List Char) :
    readStoredCreds value = .panicked ↔ (splitColon value).length ≠ 2 := by
  unfold readStoredCreds
  rcases h : splitColon value with _ | ⟨a, _ | ⟨b, _ | ⟨c, t⟩⟩⟩ <;> simp

/-- The signal count of a run never exceeds one: the select ends the flow
at the first send. -/
theorem runServer_le_one (e : String → ExchangeResult) (cb : Bool) :
    ∀ reqs : List Request, (runServer e cb reqs).1 ≤ 1 := by
  intro reqs
  induction reqs with
  | nil => simp [runServer]
  | cons r rest ih =>
    unfold runServer
    rcases h : handleRequest e cb r with ⟨s, b, sent⟩ | reason
    · cases sent <;> simp [ih]
    · simp [ih]

/-- Favicon probes preceding a signalling request do not change the
outcome: the run still ends completed with one signal. -/
theorem runServer_favicon_prefix (e : String → ExchangeResult) (cb : Bool)
    (q : List (String × String)) (req : Request) (s : Nat) (b : String)
    (hreq : handleRequest e cb req = .response s b true) :
    ∀ n : Nat,
      runServer e cb (List.replicate n ⟨"/favicon.ico", q⟩ ++ [req]) = (1, .completed) := by
  intro n
  induction n with
  | zero => simp [runServer, hreq]
  | succ n ih =>
    rw [List.replicate_succ]
    simpa [runServer, handleRequest] using ih

/-- C1 counterexample: a non-favicon request without a code parameter
makes the handler panic on the unwrap of the missing parameter, and the
run emits no signal and stays listening — it does not render an error
page and does not reach the completed state. -/
theorem c1_counterexample :
    handleRequest (fun _ => .token "t") true ⟨"/", []⟩
        = .panicked "params.get(code).unwrap() on None" ∧
    runServer (fun _ => .token "t") true [⟨"/", []⟩] = (0, .listening) := by
  constructor <;> rfl

/-- C1 amended: for every inbound callback request whose path is not the
favicon path and whose query carries no code parameter, the handler
panics on params.get code unwrap — no error page is rendered, no
completion signal is sent, and the server stays listening instead of
reaching a completed state with a ConsentDenied outcome. -/
theorem c1_missingCodePanics (e : String → ExchangeResult) (cb : Bool)
    (req : Request) (hpath : req.path ≠ "/favicon.ico")
    (hcode : getParam req.query "code" = none) :
    handleRequest e cb req = .panicked "params.get(code).unwrap() on None" ∧
    stepState .listening (handleRequest e cb req) = .listening := by
  have h : handleRequest e cb req = .panicked "params.get(code).unwrap() on None" := by
    unfold handleRequest
    simp [hpath, hcode]
  exact ⟨h, by rw [h]; rfl⟩

/-- C1 witness: the amended statement at a concrete denied-consent
request. -/
theorem c1_missingCodePanics_witness :
    handleRequest (fun _ => .token "t") true ⟨"/cb", [("error", "access_denied")]⟩
        = .panicked "params.get(code).unwrap() on None" ∧
    stepState .listening
        (handleRequest (fun _ => .token "t") true ⟨"/cb", [("error", "access_denied")]⟩)
        = .listening :=
  c1_missingCodePanics (fun _ => .token "t") true
    ⟨"/cb", [("error", "access_denied")]⟩ (by decide) (by rfl)

/-- C2 counterexample: with a code present and the token-exchange POST
failing at the transport level, the handler panics on the send unwrap;
no NetworkError is surfaced, no error page is rendered, no signal is
sent, and the server stays listening rather than reaching completed. -/
theorem c2_counterexample :
    handleRequest (fun _ => .transportError) true ⟨"/", [("code", "XYZ")]⟩
        = .panicked "send().await.unwrap() on transport error" ∧
    runServer (fun _ => .transportError) true [⟨"/", [("code", "XYZ")]⟩]
        = (0, .listening) := by
  constructor <;> rfl

/-- C2 amended: for every callback request carrying a code parameter, a
transport-level failure of the token-exchange POST makes the handler
panic on the send unwrap — the failure is not surfaced to the
orchestrator as a NetworkError, the browser gets no error page, and the
callback server does not reach the completed state. -/
theorem c2_transportErrorPanics (e : String → ExchangeResult) (cb : Bool)
    (req : Request) (code : String)
    (hpath : req.path ≠ "/favicon.ico")
    (hcode : getParam req.query "code" = some code)
    (he : e code = .transportError) :
    handleRequest e cb req = .panicked "send().await.unwrap() on transport error" ∧
    stepState .listening (handleRequest e cb req) = .listening := by
  have h : handleRequest e cb req
      = .panicked "send().await.unwrap() on transport error" := by
    unfold handleRequest
    simp [hpath, hcode, he]
  exact ⟨h, by rw [h]; rfl⟩

/-- C2 witness: the amended statement at a concrete request and a
transport-failing exchange. -/
theorem c2_transportErrorPanics_witness :
    handleRequest (fun _ => .transportError) true ⟨"/", [("code", "XYZ")]⟩
        = .panicked "send().await.unwrap() on transport error" ∧
    stepState .listening
        (handleRequest (fun _ => .transportError) true ⟨"/", [("code", "XYZ")]⟩)
        = .listening :=
  c2_transportErrorPanics (fun _ => .transportError) true ⟨"/", [("code", "XYZ")]⟩
    "XYZ" (by decide) (by rfl) (by rfl)

/-- C3 counterexample: in the execution where the port bind fails, the
browser-launch step is already in the trace before the bind step, and
the flow ends in a panic of Server bind, not in an aborted state carrying
a ConfigError. -/
theorem c3_counterexample :
    (createFlow "abc" [] true false).2 = .panicked "Server bind panicked" ∧
    FlowStep.openBrowser (authorizeUrl "abc" []) ∈ (createFlow "abc" [] true false).1 := by
  constructor
  · rfl
  · simp [createFlow]

/-- C3 amended: opener::open runs before hyper Server bind, so in every
execution where binding the port fails the browser-launch collaborator
has already been invoked, and the bind failure is a panic of Server bind
rather than a transition to an aborted state with a fatal ConfigError. -/
theorem c3_browserBeforeBind (clientId : String) (scopes : List Scope) :
    createFlow clientId scopes true false
      = ([.promptApp, .selectScopes, .openBrowser (authorizeUrl clientId scopes),
          .bindPort 4567], .panicked "Server bind panicked") ∧
    FlowStep.openBrowser (authorizeUrl clientId scopes)
        ∈ (createFlow clientId scopes true false).1 := by
  constructor
  · rfl
  · simp [createFlow]

/-- C4 counterexample: a run whose only request is a non-favicon request
without a code emits zero completion signals, not exactly one — the
handler branch that fires does matter. -/
theorem c4_counterexample :
    (runServer (fun _ => .token "t") true [⟨"/", []⟩]).1 = 0 := by
  rfl

/-- C4 amended: at most one completion signal is emitted per flow
invocation — the select ends the flow at the first send — and when the
authoritative request reaches the send (exchange and clipboard succeed)
the run emits exactly one signal and completes, regardless of how many
favicon probes preceded it; the panic branches emit no signal. -/
theorem c4_signalAtMostOnce (e : String → ExchangeResult) (cb : Bool)
    (q : List (String × String)) (req : Request) (s : Nat) (b : String)
    (reqs : List Request) (n : Nat)
    (hreq : handleRequest e cb req = .response s b true) :
    (runServer e cb reqs).1 ≤ 1 ∧
    runServer e cb (List.replicate n ⟨"/favicon.ico", q⟩ ++ [req]) = (1, .completed) :=
  ⟨runServer_le_one e cb reqs, runServer_favicon_prefix e cb q req s b hreq n⟩

/-- C4 witness: the amended statement with two favicon probes before a
successful authoritative request. -/
theorem c4_signalAtMostOnce_witness :
    (runServer (fun _ => .token "tok") true
        [⟨"/favicon.ico", []⟩, ⟨"/", [("code", "XYZ")]⟩, ⟨"/", [("code", "XYZ")]⟩]).1 ≤ 1 ∧
    runServer (fun _ => .token "tok") true
        (List.replicate 2 ⟨"/favicon.ico", []⟩ ++ [⟨"/", [("code", "XYZ")]⟩])
      = (1, .completed) :=
  c4_signalAtMostOnce (fun _ => .token "tok") true [] ⟨"/", [("code", "XYZ")]⟩
    200 "Octopat says can close this browser tab"
    [⟨"/favicon.ico", []⟩, ⟨"/", [("code", "XYZ")]⟩, ⟨"/", [("code", "XYZ")]⟩] 2 (by rfl)

/-- C5: for every scope in the catalog, parsing the wire string produced
by serializing that scope yields the same scope back. -/
theorem c5_scopeRoundTrip : ∀ s : Scope, parseScope (scopeWire s) = some s := by
  intro s; cases s <;> rfl

/-- C6 counterexample: the code builds the URL with the hard-coded port
4567, so for port 8080 the built URL differs from the spec function
buildAuthorizationUrl at that port — the claim quantified over every port
fails. -/
theorem c6_counterexample :
    authorizeUrl "abc" [.AdminOrg, .AdminRepoHook]
      ≠ buildAuthorizationUrl "abc" [.AdminOrg, .AdminRepoHook] 8080 := by
  decide

/-- C6 amended: the port is hard-coded to 4567 — for every client id and
scope list the built URL coincides with buildAuthorizationUrl at port
4567 (scopes joined in order with the literal %20 separator, redirect_uri
exactly http://localhost:4567/), and the concrete instance at client id
abc with AdminOrg then AdminRepoHook is the exact literal of the claim. -/
theorem c6_urlFixedPort (clientId : String) (scopes : List Scope) :
    authorizeUrl clientId scopes = buildAuthorizationUrl clientId scopes 4567 ∧
    authorizeUrl "abc" [.AdminOrg, .AdminRepoHook]
      = "https://github.com/login/oauth/authorize?client_id=abc&redirect_uri=http://localhost:4567/&scope=admin:org%20admin:repo_hook" := by
  constructor
  · apply String.ext
    simp [authorizeUrl, buildAuthorizationUrl, String.data_append]
    rfl
  · rfl

/-- C7: every request to the favicon path is answered with status 200 and
an empty body, independently of the exchange collaborator, with no
completion signal sent, and a run consisting of it leaves the server
listening. -/
theorem c7_faviconBenign (e : String → ExchangeResult) (cb : Bool)
    (q : List (String × String)) :
    handleRequest e cb ⟨"/favicon.ico", q⟩ = .response 200 "" false ∧
    stepState .listening (handleRequest e cb ⟨"/favicon.ico", q⟩) = .listening ∧
    runServer e cb [⟨"/favicon.ico", q⟩] = (0, .listening) := by
  refine ⟨rfl, rfl, ?_⟩
  simp [runServer, handleRequest]

/-- C8: with an empty scope selection the built URL still ends with the
scope parameter carrying an empty value, not an omitted parameter. -/
theorem c8_emptyScopeParam (clientId : String) :
    authorizeUrl clientId []
      = "https://github.com/login/oauth/authorize?client_id=" ++ clientId ++
          "&redirect_uri=http://localhost:4567/&scope=" := by
  apply String.ext
  simp [authorizeUrl, String.data_append, String.intercalate]

/-- C9 counterexample: there is no default action and there are no flags —
an invocation with no arguments does not parse, and neither does a port
flag, with or without a subcommand. -/
theorem c9_counterexample :
    parseOpts [] = none ∧ parseOpts ["--port", "8080"] = none ∧
    parseOpts ["create", "--port", "8080"] = none := by
  exact ⟨rfl, rfl, rfl⟩

/-- C9 amended: the CLI surface is three subcommands — create, list,
delete — with no flags; the create flow always binds the hard-coded port
4567 and always reads the keyring entry octopat with the hard-coded alias
default. -/
theorem c9_cliSurface :
    parseOpts ["create"] = some .Create ∧ parseOpts ["list"] = some .List ∧
    parseOpts ["delete"] = some .Delete ∧ parseOpts [] = none ∧
    callbackPort = 4567 ∧ keyringService = "octopat" ∧ keyringUser = "default" ∧
    (∀ clientId scopes,
      FlowStep.bindPort callbackPort ∈ (createFlow clientId scopes true true).1) := by
  refine ⟨rfl, rfl, rfl, rfl, rfl, rfl, rfl, ?_⟩
  intro clientId scopes
  simp [createFlow, callbackPort]

/-- C10: reading stored credentials panics exactly when the colon split
of the stored value does not have two pieces, and consequently storing a
client id or client secret that itself contains a colon makes the later
read panic instead of returning the credentials or an error. -/
theorem c10_storedColonPanics :
    (∀ value, readStoredCreds value = .panicked ↔ (splitColon value).length ≠ 2) ∧
    (∀ clientId clientSecret : List Char,
      ':' ∈ clientId ∨ ':' ∈ clientSecret →
      readStoredCreds (storeCreds clientId clientSecret) = .panicked) := by
  refine ⟨readStoredCreds_eq_panicked, ?_⟩
  intro clientId clientSecret h
  rw [readStoredCreds_eq_panicked]
  have hlen := splitColonAux_length (storeCreds clientId clientSecret) []
  rw [splitColon, hlen]
  have hc : 0 < clientId.count ':' ∨ 0 < clientSecret.count ':' := by
    rcases h with h | h
    · exact Or.inl (List.count_pos_iff.mpr h)
    · exact Or.inr (List.count_pos_iff.mpr h)
  simp [storeCreds, List.count_append, List.count_cons]
  omega

/-- C10 witness: a client secret containing a colon, stored and read
back, hits the panic arm. -/
theorem c10_storedColonPanics_witness :
    readStoredCreds (storeCreds ['a'] ['b', ':', 'c']) = .panicked :=
  c10_storedColonPanics.2 ['a'] ['b', ':', 'c'] (Or.inr (by decide))

end Octopat
